import Mathlib

set_option autoImplicit false

/-!
Shallow embedding of `plugins/inputs/bind/xml_stats_v2.go` (the BIND v2 XML
statistics reader of this telegraf fork), together with the small slice of Go
runtime behaviour the file relies on: `encoding/xml` field decoding driven by
the struct tags declared in the source, `strconv.ParseInt`, and Go map
assignment/lookup.  The theorems at the end settle the specification claims
about this reader.
-/

/-! ## Tag maps

Go `map[string]string` values, modelled as association lists with the keys
kept unique by construction.  `tagSet` is the Go map assignment `m[k] = v`
(replace the binding of `k` if present, otherwise add one); `tagGet?` is map
lookup.
-/

abbrev TagMap := List (String × String)

/-- Go map assignment `m[k] = v` on the association-list model of
`map[string]string`. -/
def tagSet : TagMap → String → String → TagMap
  | [], k, v => [(k, v)]
  | p :: rest, k, v => if p.1 == k then (k, v) :: rest else p :: tagSet rest k v

/-- Go map lookup `m[k]` on the association-list model. -/
def tagGet? : TagMap → String → Option String
  | [], _ => none
  | p :: rest, k => if p.1 == k then some p.2 else tagGet? rest k

/-! ## Accumulator observations

The telegraf `Accumulator` is an external sink; the reader only calls
`acc.AddCounter` and `acc.AddGauge`.  We record each call as an
`Observation` appended to a list, in call order.
-/

/-- Which accumulator entry point produced an observation
(`AddCounter` or `AddGauge`). -/
inductive MetricKind : Type where
  | counter : MetricKind
  | gauge : MetricKind
  deriving DecidableEq

/-- One accumulator call: measurement name, fields, tags and kind. -/
structure Observation where
  measurement : String
  fields : List (String × Int)
  tags : TagMap
  kind : MetricKind
  deriving DecidableEq

/-! ## The decoded document tree (the Go structs of xml_stats_v2.go)

Field names follow the Go source.  Go `int` fields are modelled as `Int`
with the 64-bit range enforced where the value is parsed (mirroring
`strconv.ParseInt(..., 10, 64)` inside `encoding/xml`).
-/

/-- Go struct `v2Counter` (xml_stats_v2.go, lines 59-62):
`Name string xml:"name"`, `Value int xml:"counter"`. -/
structure v2Counter where
  Name : String
  Value : Int
  deriving DecidableEq

/-- The anonymous cache struct nested in `v2Statistics.Views` (lines 27-30):
`Name string xml:"name,attr"`, `RRSets []v2Counter xml:"rrset"`. -/
structure v2Cache where
  Name : String
  RRSets : List v2Counter
  deriving DecidableEq

/-- The anonymous view struct of `v2Statistics.Views` (lines 22-31). -/
structure v2View where
  Name : String
  RdTypes : List v2Counter
  ResStats : List v2Counter
  Caches : List v2Cache
  deriving DecidableEq

/-- The anonymous server struct of `v2Statistics.Server` (lines 32-39). -/
structure v2Server where
  OpCodes : List v2Counter
  RdTypes : List v2Counter
  NSStats : List v2Counter
  ZoneStats : List v2Counter
  ResStats : List v2Counter
  SockStats : List v2Counter
  deriving DecidableEq

/-- The anonymous memory context struct (lines 41-47). -/
structure v2MemoryContext where
  Id : String
  Name : String
  Total : Int
  InUse : Int
  deriving DecidableEq

/-- The anonymous memory summary struct (lines 48-54); its fields carry no
xml tag, so `encoding/xml` matches elements by the field names themselves. -/
structure v2MemorySummary where
  TotalUse : Int
  InUse : Int
  BlockSize : Int
  ContextSize : Int
  Lost : Int
  deriving DecidableEq

/-- The anonymous memory struct of `v2Statistics.Memory` (lines 40-55). -/
structure v2Memory where
  Contexts : List v2MemoryContext
  Summary : v2MemorySummary
  deriving DecidableEq

/-- Go struct `v2Statistics` (lines 20-56). -/
structure v2Statistics where
  Version : String
  Views : List v2View
  Server : v2Server
  Memory : v2Memory
  deriving DecidableEq

/-- Go struct `v2Root` (lines 13-17): `XMLName xml.Name` (we keep the local
name), `Version string xml:"version,attr"`,
`Statistics v2Statistics xml:"bind>statistics"`. -/
structure v2Root where
  XMLName : String
  Version : String
  Statistics : v2Statistics
  deriving DecidableEq

/-- Zero value of `v2Counter`, the state `encoding/xml` starts from when it
appends a new slice element. -/
def zeroCounter : v2Counter := ⟨"", 0⟩

def zeroCache : v2Cache := ⟨"", []⟩

def zeroView : v2View := ⟨"", [], [], []⟩

def zeroServer : v2Server := ⟨[], [], [], [], [], []⟩

def zeroSummary : v2MemorySummary := ⟨0, 0, 0, 0, 0⟩

def zeroMemory : v2Memory := ⟨[], zeroSummary⟩

def zeroStatistics : v2Statistics := ⟨"", [], zeroServer, zeroMemory⟩

/-! ## XML documents and the decode driven by the struct tags

An element has a name, attributes, child elements and character data.  The
decoding functions below implement exactly what `encoding/xml` does for the
struct tags declared in xml_stats_v2.go: unknown elements are skipped,
matching scalar fields are overwritten on every occurrence, slice fields
append one freshly zeroed element per occurrence, `a>b` paths descend one
level, attribute fields take the attribute's value, and `int` fields are set
to `0` when the character data is empty and otherwise parsed with
`strconv.ParseInt(strings.TrimSpace(text), 10, 64)`, whose failure aborts
the whole decode.
-/

/-- An XML element: name, attributes, child elements, character data. -/
inductive XmlElem : Type where
  | mk : String → List (String × String) → List XmlElem → String → XmlElem

def XmlElem.name : XmlElem → String
  | .mk n _ _ _ => n

def XmlElem.attrs : XmlElem → List (String × String)
  | .mk _ a _ _ => a

def XmlElem.children : XmlElem → List XmlElem
  | .mk _ _ c _ => c

def XmlElem.text : XmlElem → String
  | .mk _ _ _ t => t

/-- Value of attribute `key`, defaulting to `d`; later occurrences of the
same attribute overwrite earlier ones, as in `encoding/xml`. -/
def attrFold (e : XmlElem) (key d : String) : String :=
  e.attrs.foldl (fun a p => if p.1 == key then p.2 else a) d

/-- Go `strings.TrimSpace`: strip leading and trailing whitespace. -/
def goTrimSpace (s : String) : String :=
  String.mk (((s.toList.dropWhile Char.isWhitespace).reverse.dropWhile
    Char.isWhitespace).reverse)

/-- Go `strconv.ParseInt(s, 10, 64)`: optional sign, decimal digits,
64-bit range check. -/
def parseIntDec (s : String) : Except String Int :=
  let cs := s.toList
  let sign : Int := if cs.head? = some '-' then -1 else 1
  let digits := if cs.head? = some '-' ∨ cs.head? = some '+' then cs.tail else cs
  if digits.isEmpty then .error ("invalid syntax: " ++ s)
  else if digits.all Char.isDigit then
    let n : Nat := digits.foldl (fun a c => a * 10 + (c.toNat - '0'.toNat)) 0
    let v : Int := sign * (n : Int)
    if v < -(2 : Int) ^ 63 ∨ (2 : Int) ^ 63 - 1 < v then
      .error ("value out of range: " ++ s)
    else .ok v
  else .error ("invalid syntax: " ++ s)

/-- `encoding/xml` unmarshalling of character data into a Go `int` field
(`copyValue`): empty data sets the field to `0`; otherwise the trimmed data
must parse as a decimal integer or the decode fails. -/
def xmlDecodeInt (text : String) : Except String Int :=
  if text.isEmpty then .ok 0 else parseIntDec (goTrimSpace text)

/-- Decode an element into `v2Counter` (fields `name`, `counter`). -/
def decodeV2Counter (init : v2Counter) (e : XmlElem) : Except String v2Counter :=
  e.children.foldlM (fun c ch =>
    if ch.name == "name" then pure { c with Name := ch.text }
    else if ch.name == "counter" then do
      let v ← xmlDecodeInt ch.text
      pure { c with Value := v }
    else pure c) init

/-- Decode a `cache` element (attribute `name`, children `rrset`). -/
def decodeV2Cache (init : v2Cache) (e : XmlElem) : Except String v2Cache :=
  e.children.foldlM (fun c ch =>
    if ch.name == "rrset" then do
      let r ← decodeV2Counter zeroCounter ch
      pure { c with RRSets := c.RRSets ++ [r] }
    else pure c) { init with Name := attrFold e "name" init.Name }

/-- Decode a `view` element (children `name`, `rdtype`, `resstat`, `cache`). -/
def decodeV2View (init : v2View) (e : XmlElem) : Except String v2View :=
  e.children.foldlM (fun v ch =>
    if ch.name == "name" then pure { v with Name := ch.text }
    else if ch.name == "rdtype" then do
      let c ← decodeV2Counter zeroCounter ch
      pure { v with RdTypes := v.RdTypes ++ [c] }
    else if ch.name == "resstat" then do
      let c ← decodeV2Counter zeroCounter ch
      pure { v with ResStats := v.ResStats ++ [c] }
    else if ch.name == "cache" then do
      let c ← decodeV2Cache zeroCache ch
      pure { v with Caches := v.Caches ++ [c] }
    else pure v) init

/-- Decode a `server` element (paths `requests>opcode`, `queries-in>rdtype`,
children `nsstat`, `zonestat`, `resstat`, `sockstat`). -/
def decodeV2Server (init : v2Server) (e : XmlElem) : Except String v2Server :=
  e.children.foldlM (fun s ch =>
    if ch.name == "requests" then
      ch.children.foldlM (fun s c2 =>
        if c2.name == "opcode" then do
          let c ← decodeV2Counter zeroCounter c2
          pure { s with OpCodes := s.OpCodes ++ [c] }
        else pure s) s
    else if ch.name == "queries-in" then
      ch.children.foldlM (fun s c2 =>
        if c2.name == "rdtype" then do
          let c ← decodeV2Counter zeroCounter c2
          pure { s with RdTypes := s.RdTypes ++ [c] }
        else pure s) s
    else if ch.name == "nsstat" then do
      let c ← decodeV2Counter zeroCounter ch
      pure { s with NSStats := s.NSStats ++ [c] }
    else if ch.name == "zonestat" then do
      let c ← decodeV2Counter zeroCounter ch
      pure { s with ZoneStats := s.ZoneStats ++ [c] }
    else if ch.name == "resstat" then do
      let c ← decodeV2Counter zeroCounter ch
      pure { s with ResStats := s.ResStats ++ [c] }
    else if ch.name == "sockstat" then do
      let c ← decodeV2Counter zeroCounter ch
      pure { s with SockStats := s.SockStats ++ [c] }
    else pure s) init

/-- Decode a `context` element (children `id`, `name`, `total`, `inuse`). -/
def decodeV2MemoryContext (init : v2MemoryContext) (e : XmlElem) :
    Except String v2MemoryContext :=
  e.children.foldlM (fun c ch =>
    if ch.name == "id" then pure { c with Id := ch.text }
    else if ch.name == "name" then pure { c with Name := ch.text }
    else if ch.name == "total" then do
      let v ← xmlDecodeInt ch.text
      pure { c with Total := v }
    else if ch.name == "inuse" then do
      let v ← xmlDecodeInt ch.text
      pure { c with InUse := v }
    else pure c) init

/-- Decode a `summary` element; the Go fields are untagged, so the element
names are the field names themselves. -/
def decodeV2MemorySummary (init : v2MemorySummary) (e : XmlElem) :
    Except String v2MemorySummary :=
  e.children.foldlM (fun m ch =>
    if ch.name == "TotalUse" then do
      let v ← xmlDecodeInt ch.text
      pure { m with TotalUse := v }
    else if ch.name == "InUse" then do
      let v ← xmlDecodeInt ch.text
      pure { m with InUse := v }
    else if ch.name == "BlockSize" then do
      let v ← xmlDecodeInt ch.text
      pure { m with BlockSize := v }
    else if ch.name == "ContextSize" then do
      let v ← xmlDecodeInt ch.text
      pure { m with ContextSize := v }
    else if ch.name == "Lost" then do
      let v ← xmlDecodeInt ch.text
      pure { m with Lost := v }
    else pure m) init

/-- Decode a `memory` element (path `contexts>context`, child `summary`). -/
def decodeV2Memory (init : v2Memory) (e : XmlElem) : Except String v2Memory :=
  e.children.foldlM (fun m ch =>
    if ch.name == "contexts" then
      ch.children.foldlM (fun m c2 =>
        if c2.name == "context" then do
          let c ← decodeV2MemoryContext ⟨"", "", 0, 0⟩ c2
          pure { m with Contexts := m.Contexts ++ [c] }
        else pure m) m
    else if ch.name == "summary" then do
      let s ← decodeV2MemorySummary m.Summary ch
      pure { m with Summary := s }
    else pure m) init

/-- Decode a `statistics` element (attribute `version`, path `views>view`,
children `server`, `memory`). -/
def decodeV2Statistics (init : v2Statistics) (e : XmlElem) :
    Except String v2Statistics :=
  e.children.foldlM (fun st ch =>
    if ch.name == "views" then
      ch.children.foldlM (fun st c2 =>
        if c2.name == "view" then do
          let v ← decodeV2View zeroView c2
          pure { st with Views := st.Views ++ [v] }
        else pure st) st
    else if ch.name == "server" then do
      let s ← decodeV2Server st.Server ch
      pure { st with Server := s }
    else if ch.name == "memory" then do
      let m ← decodeV2Memory st.Memory ch
      pure { st with Memory := m }
    else pure st) { init with Version := attrFold e "version" init.Version }

/-- Decode a whole document into `v2Root`: the root element has any name
(recorded in `XMLName`), its `version` attribute is stored as a plain
string, and `Statistics` is filled through the path `bind>statistics`.
No version dispatch or validation happens anywhere in this decode. -/
def decodeV2Root (e : XmlElem) : Except String v2Root :=
  e.children.foldlM (fun r ch =>
    if ch.name == "bind" then
      ch.children.foldlM (fun r c2 =>
        if c2.name == "statistics" then do
          let s ← decodeV2Statistics r.Statistics c2
          pure { r with Statistics := s }
        else pure r) r
    else pure r)
    { XMLName := e.name, Version := attrFold e "version" "",
      Statistics := zeroStatistics }

/-- The response body handed to `xml.NewDecoder(resp.Body).Decode(&stats)`:
either a well-formed element tree or a syntax error raised by the XML
tokenizer; a well-formed tree can still fail field decoding. -/
def decodeDocument (body : Except String XmlElem) : Except String v2Root :=
  match body with
  | .error e => .error e
  | .ok t => decodeV2Root t

/-! ## The fetch-decode-emit pipeline of readStatsXMLv2

`Bind` holds the two configuration flags the function reads (declared in the
plugin's main file, outside the embedded sources; the spec calls them
`CollectionConfig`).  The HTTP layer is a collaborator: `client.Get` is
modelled by handing the function an `Except String HttpResponse` (transport
error or response), and the response body is the raw document.
-/

/-- Configuration flags read by `readStatsXMLv2` (`b.GatherMemoryContexts`,
`b.GatherViews`).  Modelled from the spec: the `Bind` struct itself is
declared in the plugin's registration file, which is not among the embedded
sources; the spec's `CollectionConfig` (section 3) names exactly these two
booleans. -/
structure BindConfig where
  GatherMemoryContexts : Bool
  GatherViews : Bool
  deriving DecidableEq

/-- The two projections of `*url.URL` the function uses: `addr.Host` for
tags and the full URL string (`addr.String()`, `%s` in the status error). -/
structure URL where
  Host : String
  Full : String
  deriving DecidableEq

/-- The parts of `*http.Response` the function reads: `resp.StatusCode`,
`resp.Status`, and the body handed to the XML decoder. -/
structure HttpResponse where
  StatusCode : Nat
  Status : String
  Body : Except String XmlElem

/-- Go function `addXMLv2Counter` (lines 65-79): for each counter, build a
fresh local copy of `commonTags`, set its `name` tag, and call
`acc.AddCounter("bind_counter", {value: c.Value}, tags)`. -/
def addXMLv2Counter (acc : List Observation) (commonTags : TagMap)
    (stats : List v2Counter) : List Observation :=
  acc ++ stats.map (fun c =>
    { measurement := "bind_counter",
      fields := [("value", c.Value)],
      tags := tagSet commonTags "name" c.Name,
      kind := MetricKind.counter })

/-- Lines 103-123 of `readStatsXMLv2`: the server counter groups.  The local
map `tags` is mutated in place (`tags["type"] = ...`) before each
`addXMLv2Counter` call; the function returns the accumulator together with
the final value of that shared map.  Note the source emits five groups:
`Server.ResStats` is decoded but never passed to `addXMLv2Counter`. -/
def serverCounters (acc : List Observation) (tags : TagMap) (s : v2Server) :
    List Observation × TagMap :=
  let tags := tagSet tags "type" "opcode"
  let acc := addXMLv2Counter acc tags s.OpCodes
  let tags := tagSet tags "type" "qtype"
  let acc := addXMLv2Counter acc tags s.RdTypes
  let tags := tagSet tags "type" "nsstat"
  let acc := addXMLv2Counter acc tags s.NSStats
  let tags := tagSet tags "type" "zonestat"
  let acc := addXMLv2Counter acc tags s.ZoneStats
  let tags := tagSet tags "type" "sockstat"
  let acc := addXMLv2Counter acc tags s.SockStats
  (acc, tags)

/-- Lines 103-160 of `readStatsXMLv2`: everything after a successful decode.
Server counter groups, the unconditional `bind_memory` gauge, per-context
memory gauges when `GatherMemoryContexts`, and per-view counters when
`GatherViews` (a fresh `{url, view}` map per view, again mutated in place
with the `type` tag). -/
def emitXMLv2 (b : BindConfig) (addr : URL) (stats : v2Root)
    (acc : List Observation) : List Observation :=
  let tags : TagMap := [("url", addr.Host)]
  let acc := (serverCounters acc tags stats.Statistics.Server).1
  let fields : List (String × Int) :=
    [("TotalUse", stats.Statistics.Memory.Summary.TotalUse),
     ("InUse", stats.Statistics.Memory.Summary.InUse),
     ("BlockSize", stats.Statistics.Memory.Summary.BlockSize),
     ("ContextSize", stats.Statistics.Memory.Summary.ContextSize),
     ("Lost", stats.Statistics.Memory.Summary.Lost)]
  let acc := acc ++
    [{ measurement := "bind_memory", fields := fields,
       tags := [("url", addr.Host)], kind := MetricKind.gauge }]
  let acc := if b.GatherMemoryContexts then
      acc ++ stats.Statistics.Memory.Contexts.map (fun c =>
        { measurement := "bind_memory_context",
          fields := [("Total", c.Total), ("InUse", c.InUse)],
          tags := [("url", addr.Host), ("id", c.Id), ("name", c.Name)],
          kind := MetricKind.gauge })
    else acc
  let acc := if b.GatherViews then
      stats.Statistics.Views.foldl (fun acc v =>
        let vtags : TagMap := [("url", addr.Host), ("view", v.Name)]
        let vtags := tagSet vtags "type" "qtype"
        let acc := addXMLv2Counter acc vtags v.RdTypes
        let vtags := tagSet vtags "type" "resstats"
        let acc := addXMLv2Counter acc vtags v.ResStats
        acc) acc
    else acc
  acc

/-- Go method `readStatsXMLv2` (lines 83-161).  The result pairs the final
accumulator contents with the returned error (`none` = `nil`): a transport
error from `client.Get` is returned as is; a status other than
`http.StatusOK` (exactly 200) returns the formatted status error; a decode
failure returns the wrapped decode error.  Only after all three checks does
any accumulator call happen. -/
def readStatsXMLv2 (b : BindConfig) (addr : URL) (resp : Except String HttpResponse)
    (acc : List Observation) : List Observation × Option String :=
  match resp with
  | .error err => (acc, some err)
  | .ok r =>
    if r.StatusCode ≠ 200 then
      (acc, some (addr.Full ++ " returned HTTP status: " ++ r.Status))
    else
      match decodeDocument r.Body with
      | .error e => (acc, some ("Unable to decode XML document: " ++ e))
      | .ok stats => (emitXMLv2 b addr stats acc, none)

/-! ## A store model of the tag maps for the aliasing claims

Go maps are reference types; the copy loop in `addXMLv2Counter` exists
precisely so that each emitted observation owns an independent map.  To
state that, this second embedding of `addXMLv2Counter` makes the references
explicit: a `Store` is the heap of live tag maps, a map value is an index
into it, and each loop iteration allocates a fresh cell holding a copy of
the shared `commonTags` cell before setting its `name` tag. -/

abbrev Store := List TagMap

/-- Dereference a tag-map reference. -/
def readRef (st : Store) (r : Nat) : TagMap := (st[r]?).getD []

/-- Overwrite the cell behind a reference. -/
def writeRef (st : Store) (r : Nat) (m : TagMap) : Store := st.set r m

/-- Go `m[k] = v` through a reference: mutates the cell in place. -/
def setTagRef (st : Store) (r : Nat) (k v : String) : Store :=
  writeRef st r (tagSet (readRef st r) k v)

/-- An observation whose tag map is a reference into the store. -/
structure ObsRef where
  measurement : String
  fields : List (String × Int)
  tagsRef : Nat
  kind : MetricKind
  deriving DecidableEq

/-- `addXMLv2Counter` with explicit map references: per counter, allocate a
fresh map initialized to a copy of the `commonTags` cell (the
`make` + copy loop of lines 67-72), set its `name` tag in place, and emit an
observation holding the fresh reference. -/
def addXMLv2CounterHeap : Store → Nat → List v2Counter → Store × List ObsRef
  | st, _, [] => (st, [])
  | st, common, c :: rest =>
    let st1 := st ++ [readRef st common]
    let st2 := setTagRef st1 st.length "name" c.Name
    let out := addXMLv2CounterHeap st2 common rest
    (out.1,
      ObsRef.mk "bind_counter" [("value", c.Value)] st.length MetricKind.counter
        :: out.2)

/-! ## Spec-side emission shape and fixtures -/

/-- Emission shape the spec ascribes to one server counter group (section
4.3 rule 1, with the measurement name the code actually uses): one Counter
observation per counter, tags an independent copy of the base map extended
with the group's `type` label and the counter's `name`. -/
def groupObs (base : TagMap) (label : String) (cs : List v2Counter) :
    List Observation :=
  cs.map (fun c =>
    { measurement := "bind_counter",
      fields := [("value", c.Value)],
      tags := tagSet (tagSet base "type" label) "name" c.Name,
      kind := MetricKind.counter })

/-- Strip the cache sections from every view of a decoded tree. -/
def eraseCaches (r : v2Root) : v2Root :=
  { r with Statistics :=
    { r.Statistics with Views :=
      r.Statistics.Views.map (fun v => { v with Caches := [] }) } }

/-- Leaf element helper for fixtures. -/
def leafE (n t : String) : XmlElem := XmlElem.mk n [] [] t

/-- Fixture family: a document with the given version marker on the root and
statistics elements, whose `server/requests/opcode` section holds exactly one
counter with the given name and value text. -/
def opcodeDoc (ver nm valueText : String) : XmlElem :=
  XmlElem.mk "isc" [("version", ver)]
    [XmlElem.mk "bind" []
      [XmlElem.mk "statistics" [("version", ver)]
        [XmlElem.mk "server" []
          [XmlElem.mk "requests" []
            [XmlElem.mk "opcode" [] [leafE "name" nm, leafE "counter" valueText] ""]
            ""]
          ""]
        ""]
      ""]
    ""

/-- The spec's end-to-end fixture: version `"2"`, one opcode counter
`{name: QUERY, value: 42}`. -/
def fixtureDoc : XmlElem := opcodeDoc "2" "QUERY" "42"

/-- A structurally well-formed document whose one counter value does not
parse as an integer. -/
def badValueDoc : XmlElem := opcodeDoc "2" "X" "12abc"

/-- A well-formed document whose one counter carries an empty value
element (`<counter></counter>`). -/
def emptyValueDoc : XmlElem := opcodeDoc "2" "QUERY" ""

/-- A well-formed document whose one counter has no value element at all. -/
def missingValueDoc : XmlElem :=
  XmlElem.mk "isc" [("version", "2")]
    [XmlElem.mk "bind" []
      [XmlElem.mk "statistics" [("version", "2")]
        [XmlElem.mk "server" []
          [XmlElem.mk "requests" []
            [XmlElem.mk "opcode" [] [leafE "name" "QUERY"] ""]
            ""]
          ""]
        ""]
      ""]
    ""

/-- A document with one view holding one cache with one rrset counter. -/
def cacheDoc : XmlElem :=
  XmlElem.mk "isc" [("version", "2")]
    [XmlElem.mk "bind" []
      [XmlElem.mk "statistics" [("version", "2")]
        [XmlElem.mk "views" []
          [XmlElem.mk "view" []
            [leafE "name" "default",
             XmlElem.mk "cache" [("name", "localhost")]
               [XmlElem.mk "rrset" [] [leafE "name" "A", leafE "counter" "7"] ""]
               ""]
            ""]
          ""]
        ""]
      ""]
    ""

/-- The configuration used by the concrete fixtures: both gather flags off. -/
def b0 : BindConfig := ⟨false, false⟩

/-- The fixture target. -/
def u0 : URL := ⟨"example:8053", "http://example:8053/"⟩

/-- The one Counter observation the fixture document produces. -/
def fixtureCounterObs : Observation :=
  { measurement := "bind_counter", fields := [("value", 42)],
    tags := [("url", "example:8053"), ("type", "opcode"), ("name", "QUERY")],
    kind := MetricKind.counter }

/-- The unconditional memory-summary gauge the fixture document produces
(all summary fields decode to their zero values). -/
def fixtureMemObs : Observation :=
  { measurement := "bind_memory",
    fields := [("TotalUse", 0), ("InUse", 0), ("BlockSize", 0),
               ("ContextSize", 0), ("Lost", 0)],
    tags := [("url", "example:8053")], kind := MetricKind.gauge }

/-! ## Helper lemmas -/

/-- Setting the same key twice keeps only the last value. -/
theorem tagSet_tagSet (m : TagMap) (k v w : String) :
    tagSet (tagSet m k v) k w = tagSet m k w := by
  induction m with
  | nil => simp [tagSet]
  | cons p rest ih =>
    by_cases hp : (p.1 == k) = true
    · simp [tagSet, hp]
    · simp [tagSet, hp, ih]

/-- Looking up a key other than the one just set sees through the update. -/
theorem tagGet?_tagSet_ne (m : TagMap) (k v k' : String) (h : k' ≠ k) :
    tagGet? (tagSet m k v) k' = tagGet? m k' := by
  have hkk : (k == k') = false := by
    simp [beq_eq_false_iff_ne]
    exact fun hk => h hk.symm
  induction m with
  | nil => simp [tagSet, tagGet?, hkk]
  | cons p rest ih =>
    by_cases hp : (p.1 == k) = true
    · have hp' : (p.1 == k') = false := by
        have : p.1 = k := eq_of_beq hp
        simp [beq_eq_false_iff_ne, this]
        exact fun hk => h hk.symm
      simp [tagSet, tagGet?, hp, hp', hkk]
    · simp [tagSet, tagGet?, hp, ih]

/-- Looking up the key just set yields the new value. -/
theorem tagGet?_tagSet_self (m : TagMap) (k v : String) :
    tagGet? (tagSet m k v) k = some v := by
  induction m with
  | nil => simp [tagSet, tagGet?]
  | cons p rest ih =>
    by_cases hp : (p.1 == k) = true
    · simp [tagSet, tagGet?, hp]
    · simp [tagSet, tagGet?, hp, ih]

/-- Characterization of the server section (lines 103-123): the emitted
observations are, in order, one `bind_counter` Counter per counter of the
opcode, qtype, nsstat, zonestat and sockstat groups — each tagged on an
independent copy of the base map — and the shared base map itself ends up
holding `type = sockstat`.  `Server.ResStats` does not appear. -/
theorem serverCounters_spec (acc : List Observation) (t : TagMap) (s : v2Server) :
    serverCounters acc t s =
      (acc ++ groupObs t "opcode" s.OpCodes ++ groupObs t "qtype" s.RdTypes ++
        groupObs t "nsstat" s.NSStats ++ groupObs t "zonestat" s.ZoneStats ++
        groupObs t "sockstat" s.SockStats,
       tagSet t "type" "sockstat") := by
  simp [serverCounters, addXMLv2Counter, groupObs, tagSet_tagSet,
    List.append_assoc]

/-- Writing one cell leaves every other cell unchanged. -/
theorem readRef_writeRef_ne (st : Store) (r r' : Nat) (m : TagMap)
    (h : r ≠ r') : readRef (writeRef st r m) r' = readRef st r' := by
  simp [readRef, writeRef, List.getElem?_set_ne h]

/-- Mutating one cell's tags leaves every other cell unchanged. -/
theorem readRef_setTagRef_ne (st : Store) (r r' : Nat) (k v : String)
    (h : r ≠ r') : readRef (setTagRef st r k v) r' = readRef st r' :=
  readRef_writeRef_ne st r r' _ h

/-- Cells below the initial store length survive an append. -/
theorem readRef_append_lt (st tail : Store) (r : Nat) (h : r < st.length) :
    readRef (st ++ tail) r = readRef st r := by
  simp [readRef, List.getElem?_append, h]

/-- The loop allocates exactly one cell per counter. -/
theorem addHeap_store_length (l : List v2Counter) :
    ∀ st common, (addXMLv2CounterHeap st common l).1.length = st.length + l.length := by
  induction l with
  | nil => intro st common; simp [addXMLv2CounterHeap]
  | cons c rest ih =>
    intro st common
    simp only [addXMLv2CounterHeap]
    rw [ih]
    simp [setTagRef, writeRef]
    omega

/-- One observation per counter. -/
theorem addHeap_obs_length (l : List v2Counter) :
    ∀ st common, (addXMLv2CounterHeap st common l).2.length = l.length := by
  induction l with
  | nil => intro st common; simp [addXMLv2CounterHeap]
  | cons c rest ih => intro st common; simp [addXMLv2CounterHeap, ih]

/-- The loop never touches cells that existed before it ran: in particular
the caller's shared `commonTags` cell is left exactly as it was. -/
theorem addHeap_frame (l : List v2Counter) :
    ∀ st common r, r < st.length →
      readRef (addXMLv2CounterHeap st common l).1 r = readRef st r := by
  induction l with
  | nil => intro st common r _; simp [addXMLv2CounterHeap]
  | cons c rest ih =>
    intro st common r hr
    simp only [addXMLv2CounterHeap]
    rw [ih]
    · rw [readRef_setTagRef_ne _ _ _ _ _ (by omega),
        readRef_append_lt _ _ _ hr]
    · simp [setTagRef, writeRef]
      omega

/-- The i-th emitted observation references the i-th freshly allocated
cell: reference `st.length + i`. -/
theorem addHeap_refs (l : List v2Counter) :
    ∀ st common i, i < l.length →
      ((addXMLv2CounterHeap st common l).2[i]?).map ObsRef.tagsRef =
        some (st.length + i) := by
  induction l with
  | nil => intro st common i hi; simp at hi
  | cons c rest ih =>
    intro st common i hi
    match i with
    | 0 => simp [addXMLv2CounterHeap]
    | Nat.succ i' =>
      have hi' : i' < rest.length := by simpa using hi
      simp only [addXMLv2CounterHeap, List.getElem?_cons_succ]
      rw [ih _ _ _ hi']
      simp [setTagRef, writeRef]
      omega

/-! ## Claim theorems -/

/-- C1, counterexample: feeding one counter into each of the six server
groups produces only five observations — `Server.ResStats` is never
emitted, no observation carries the `resstat` type label, and the
measurement is `bind_counter`, not `stat_counter` as claimed. -/
theorem bind_C1_counterexample :
    ((serverCounters [] [("url", "h")]
        ⟨[⟨"A", 1⟩], [⟨"B", 2⟩], [⟨"C", 3⟩], [⟨"D", 4⟩], [⟨"E", 5⟩],
          [⟨"F", 6⟩]⟩).1.length = 5) ∧
    ((serverCounters [] [("url", "h")]
        ⟨[⟨"A", 1⟩], [⟨"B", 2⟩], [⟨"C", 3⟩], [⟨"D", 4⟩], [⟨"E", 5⟩],
          [⟨"F", 6⟩]⟩).1.all
      (fun o => decide (o.measurement ≠ "stat_counter") &&
        decide (tagGet? o.tags "type" ≠ some "resstat")) = true) := by
  decide

/-- C1 (amended): the server section emits one Counter observation per
counter in each of five groups (opcodes, query-types, ns-stats, zone-stats,
socket-stats) with type labels `opcode`, `qtype`, `nsstat`, `zonestat`,
`sockstat` and measurement `bind_counter`; the server resolver-stats group
is decoded but never emitted. -/
theorem bind_C1_server_groups (acc : List Observation) (t : TagMap)
    (s : v2Server) :
    (serverCounters acc t s).1 =
      acc ++ groupObs t "opcode" s.OpCodes ++ groupObs t "qtype" s.RdTypes ++
        groupObs t "nsstat" s.NSStats ++ groupObs t "zonestat" s.ZoneStats ++
        groupObs t "sockstat" s.SockStats := by
  rw [serverCounters_spec]

/-- C2, counterexample: a document whose version marker is `v9` is decoded
and emitted exactly like one marked `2` — collection succeeds and two
observations are produced, where the claim demands failure and none. -/
theorem bind_C2_counterexample :
    readStatsXMLv2 b0 u0
        (.ok ⟨200, "200 OK", .ok (opcodeDoc "v9" "QUERY" "42")⟩) [] =
      ([fixtureCounterObs, fixtureMemObs], none) := by
  rfl

/-- C2 (amended): the v2 reader performs no version dispatch at all — the
version marker is decoded into the tree but never inspected, so a document
with any version string (including unknown ones such as `v9`) decodes and
emits exactly the same observations. -/
theorem bind_C2_version_ignored (ver nm : String) :
    readStatsXMLv2 b0 u0 (.ok ⟨200, "200 OK", .ok (opcodeDoc ver nm "42")⟩) [] =
      ([{ measurement := "bind_counter", fields := [("value", 42)],
          tags := [("url", "example:8053"), ("type", "opcode"), ("name", nm)],
          kind := MetricKind.counter }, fixtureMemObs], none) := by
  rfl

/-- C3: whenever decoding the body of a 200 response fails, the cycle
returns the wrapped decode error and the accumulator is left exactly as it
was — not a single observation is emitted. -/
theorem bind_C3_decode_failure_atomic (b : BindConfig) (addr : URL)
    (r : HttpResponse) (acc : List Observation) (e : String)
    (h200 : r.StatusCode = 200) (hdec : decodeDocument r.Body = .error e) :
    readStatsXMLv2 b addr (.ok r) acc =
      (acc, some ("Unable to decode XML document: " ++ e)) := by
  simp [readStatsXMLv2, h200, hdec]

/-- Witness for C3 at a concrete failing document. -/
theorem bind_C3_witness :
    readStatsXMLv2 b0 u0 (.ok ⟨200, "200 OK", .ok badValueDoc⟩) [] =
      ([], some ("Unable to decode XML document: " ++ "invalid syntax: 12abc")) :=
  bind_C3_decode_failure_atomic b0 u0 ⟨200, "200 OK", .ok badValueDoc⟩ []
    "invalid syntax: 12abc" rfl rfl

/-- C4, counterexample: a structurally well-formed document whose one
counter value is `12abc` does not decode to `0` — the whole decode (and the
cycle) fails and nothing is emitted, where the claim demands success. -/
theorem bind_C4_counterexample :
    readStatsXMLv2 b0 u0 (.ok ⟨200, "200 OK", .ok badValueDoc⟩) [] =
      ([], some ("Unable to decode XML document: " ++ ("invalid syntax: " ++
        "12abc"))) := by
  rfl

/-- C4 (amended): only an absent or empty counter value element decodes to
`0` with the cycle succeeding; a non-empty value that does not parse as an
integer aborts the whole decode. -/
theorem bind_C4_empty_value_zero :
    readStatsXMLv2 b0 u0 (.ok ⟨200, "200 OK", .ok emptyValueDoc⟩) [] =
      ([{ fixtureCounterObs with fields := [("value", 0)] }, fixtureMemObs],
        none) ∧
    readStatsXMLv2 b0 u0 (.ok ⟨200, "200 OK", .ok missingValueDoc⟩) [] =
      ([{ fixtureCounterObs with fields := [("value", 0)] }, fixtureMemObs],
        none) :=
  ⟨rfl, rfl⟩

/-- C5, counterexample: a 201 response — squarely in the 2xx success class —
does not proceed to decoding: the same body that decodes fine under 200 is
rejected with the status error and zero observations. -/
theorem bind_C5_counterexample :
    readStatsXMLv2 b0 u0 (.ok ⟨201, "201 Created", .ok fixtureDoc⟩) [] =
      ([], some ("http://example:8053/" ++ " returned HTTP status: " ++
        "201 Created")) ∧
    readStatsXMLv2 b0 u0 (.ok ⟨200, "200 OK", .ok fixtureDoc⟩) [] =
      ([fixtureCounterObs, fixtureMemObs], none) :=
  ⟨rfl, rfl⟩

/-- C5 (amended): any response whose status differs from exactly 200 —
including other 2xx statuses — fails with an error carrying the observed
status, and no observations are emitted; only status 200 proceeds to
decoding. -/
theorem bind_C5_non200_rejected (b : BindConfig) (addr : URL)
    (r : HttpResponse) (acc : List Observation) (h : r.StatusCode ≠ 200) :
    readStatsXMLv2 b addr (.ok r) acc =
      (acc, some (addr.Full ++ " returned HTTP status: " ++ r.Status)) := by
  simp [readStatsXMLv2, h]

/-- Witness for C5 at a concrete 201 response. -/
theorem bind_C5_witness :
    readStatsXMLv2 b0 u0 (.ok ⟨201, "201 Created", .ok fixtureDoc⟩) [] =
      ([], some ("http://example:8053/" ++ " returned HTTP status: " ++
        "201 Created")) :=
  bind_C5_non200_rejected b0 u0 ⟨201, "201 Created", .ok fixtureDoc⟩ []
    (by decide)

/-- C6, counterexample: after the server section runs, the base tag map
derived from the URL does not hold exactly its original entries — the
in-place `tags["type"] = ...` writes have added a `type` binding. -/
theorem bind_C6_counterexample :
    (serverCounters [] [("url", "example:8053")] zeroServer).2 ≠
      [("url", "example:8053")] := by
  decide

/-- C6 (amended): the server section mutates the shared base tag map in
place — after emission it holds its original entries plus
`type = sockstat` (the last group's label); each emitted observation still
receives an independent copy, so observations are unaffected. -/
theorem bind_C6_base_map_mutated (acc : List Observation) (t : TagMap)
    (s : v2Server) :
    (serverCounters acc t s).2 = tagSet t "type" "sockstat" := by
  rw [serverCounters_spec]

/-- C7: every observation's tag map is a fresh copy.  In the store model of
`addXMLv2Counter`, mutating the map referenced by one emitted observation
(for example writing its `type` tag) changes neither another observation's
map nor the caller's shared base map. -/
theorem bind_C7_fresh_copies (st : Store) (common : Nat)
    (stats : List v2Counter) (i j : Nat) (oi oj : ObsRef) (k v : String)
    (hc : common < st.length)
    (hoi : (addXMLv2CounterHeap st common stats).2[i]? = some oi)
    (hoj : (addXMLv2CounterHeap st common stats).2[j]? = some oj)
    (hij : i ≠ j) :
    readRef (setTagRef (addXMLv2CounterHeap st common stats).1 oi.tagsRef k v)
        oj.tagsRef =
      readRef (addXMLv2CounterHeap st common stats).1 oj.tagsRef ∧
    readRef (setTagRef (addXMLv2CounterHeap st common stats).1 oi.tagsRef k v)
        common =
      readRef (addXMLv2CounterHeap st common stats).1 common := by
  have hilen : i < stats.length := by
    by_contra hge
    rw [List.getElem?_eq_none (by rw [addHeap_obs_length]; omega)] at hoi
    cases hoi
  have hjlen : j < stats.length := by
    by_contra hge
    rw [List.getElem?_eq_none (by rw [addHeap_obs_length]; omega)] at hoj
    cases hoj
  have hri : oi.tagsRef = st.length + i := by
    have h := addHeap_refs stats st common i hilen
    rw [hoi] at h
    simpa using h
  have hrj : oj.tagsRef = st.length + j := by
    have h := addHeap_refs stats st common j hjlen
    rw [hoj] at h
    simpa using h
  refine ⟨readRef_setTagRef_ne _ _ _ _ _ ?_, readRef_setTagRef_ne _ _ _ _ _ ?_⟩
  · rw [hri, hrj]; omega
  · rw [hri]; omega

/-- Witness for C7: two counters emitted from one base cell; mutating the
first observation's map leaves the second's map and the base cell intact. -/
theorem bind_C7_witness :
    readRef (setTagRef (addXMLv2CounterHeap [[("url", "h")]] 0
          [⟨"A", 1⟩, ⟨"B", 2⟩]).1 1 "type" "x") 2 =
      readRef (addXMLv2CounterHeap [[("url", "h")]] 0 [⟨"A", 1⟩, ⟨"B", 2⟩]).1 2 ∧
    readRef (setTagRef (addXMLv2CounterHeap [[("url", "h")]] 0
          [⟨"A", 1⟩, ⟨"B", 2⟩]).1 1 "type" "x") 0 =
      readRef (addXMLv2CounterHeap [[("url", "h")]] 0 [⟨"A", 1⟩, ⟨"B", 2⟩]).1 0 :=
  bind_C7_fresh_copies [[("url", "h")]] 0 [⟨"A", 1⟩, ⟨"B", 2⟩] 0 1
    (ObsRef.mk "bind_counter" [("value", 1)] 1 MetricKind.counter)
    (ObsRef.mk "bind_counter" [("value", 2)] 2 MetricKind.counter)
    "type" "x" (by decide) rfl rfl (by decide)

/-- C8, counterexample: on the spec's own fixture the emitted measurements
are `bind_counter` and `bind_memory`; no observation carries the claimed
measurement `stat_counter`. -/
theorem bind_C8_counterexample :
    ((readStatsXMLv2 b0 u0 (.ok ⟨200, "200 OK", .ok fixtureDoc⟩) []).1.map
        (fun o => o.measurement)) = ["bind_counter", "bind_memory"] ∧
    ¬ "stat_counter" ∈
      ((readStatsXMLv2 b0 u0 (.ok ⟨200, "200 OK", .ok fixtureDoc⟩) []).1.map
        (fun o => o.measurement)) := by
  decide

/-- C8 (amended): the fixture document (version `"2"`, one opcode counter
`{name: QUERY, value: 42}`) yields exactly one Counter observation —
measurement `bind_counter`, fields `{value: 42}`, tags
`{url: example:8053, type: opcode, name: QUERY}` — alongside the
unconditional memory-summary gauge. -/
theorem bind_C8_fixture :
    ((readStatsXMLv2 b0 u0 (.ok ⟨200, "200 OK", .ok fixtureDoc⟩) []).1.filter
        (fun o => match o.kind with
          | MetricKind.counter => true
          | MetricKind.gauge => false)) = [fixtureCounterObs] ∧
    readStatsXMLv2 b0 u0 (.ok ⟨200, "200 OK", .ok fixtureDoc⟩) [] =
      ([fixtureCounterObs, fixtureMemObs], none) :=
  ⟨rfl, rfl⟩

/-- A cons cell whose key differs from the one looked up is skipped. -/
theorem tagGet?_cons_ne (k v : String) (rest : TagMap) (k' : String)
    (h : k ≠ k') : tagGet? ((k, v) :: rest) k' = tagGet? rest k' := by
  have hb : (k == k') = false := by
    simpa [beq_eq_false_iff_ne] using h
  simp [tagGet?, hb]

/-- The accumulator after a cycle is either untouched (error paths) or the
result of running the emitter on some successfully decoded tree. -/
theorem readStats_acc_or_emit (b : BindConfig) (addr : URL)
    (resp : Except String HttpResponse) (acc : List Observation) :
    (readStatsXMLv2 b addr resp acc).1 = acc ∨
    ∃ stats : v2Root,
      (readStatsXMLv2 b addr resp acc).1 = emitXMLv2 b addr stats acc := by
  match resp with
  | .error e => left; rfl
  | .ok r =>
    simp only [readStatsXMLv2]
    split
    · left; rfl
    · split
      · left; rfl
      · right; exact ⟨_, rfl⟩

/-- With views disabled, every observation the emitter can produce — server
counters, the memory summary gauge, per-context gauges — carries no `view`
tag. -/
theorem emit_no_view_tag (b : BindConfig) (addr : URL) (stats : v2Root)
    (h : b.GatherViews = false) :
    ∀ o ∈ emitXMLv2 b addr stats [], tagGet? o.tags "view" = none := by
  intro o ho
  simp [emitXMLv2, h, serverCounters_spec, groupObs] at ho
  by_cases hm : b.GatherMemoryContexts = true
  · simp only [hm, if_true, List.mem_append, List.mem_map, List.mem_cons,
      List.mem_singleton] at ho
    rcases ho with ⟨c, _, rfl⟩ | ⟨c, _, rfl⟩ | ⟨c, _, rfl⟩ | ⟨c, _, rfl⟩ |
      ⟨c, _, rfl⟩ | rfl | ⟨c, _, rfl⟩
    all_goals first
    | (rw [tagGet?_tagSet_ne _ _ _ _ (by decide),
        tagGet?_tagSet_ne _ _ _ _ (by decide),
        tagGet?_cons_ne _ _ _ _ (by decide)]
       rfl)
    | (rw [tagGet?_cons_ne _ _ _ _ (by decide)]
       rfl)
  · simp [hm, List.mem_append, List.mem_map, List.mem_cons,
      List.mem_singleton] at ho
    rcases ho with ⟨c, _, rfl⟩ | ⟨c, _, rfl⟩ | ⟨c, _, rfl⟩ | ⟨c, _, rfl⟩ |
      ⟨c, _, rfl⟩ | rfl
    all_goals first
    | (rw [tagGet?_tagSet_ne _ _ _ _ (by decide),
        tagGet?_tagSet_ne _ _ _ _ (by decide),
        tagGet?_cons_ne _ _ _ _ (by decide)]
       rfl)
    | (rw [tagGet?_cons_ne _ _ _ _ (by decide)]
       rfl)

/-- C9: with `GatherViews = false`, no observation emitted by a collection
cycle carries a `view` tag, whatever the response contains. -/
theorem bind_C9_no_view_tag (b : BindConfig) (addr : URL)
    (resp : Except String HttpResponse) (h : b.GatherViews = false) :
    ∀ o ∈ (readStatsXMLv2 b addr resp []).1, tagGet? o.tags "view" = none := by
  intro o ho
  rcases readStats_acc_or_emit b addr resp [] with heq | ⟨stats, heq⟩
  · rw [heq] at ho
    simp at ho
  · rw [heq] at ho
    exact emit_no_view_tag b addr stats h o ho

/-- Witness for C9 at the concrete fixture: its counter observation has no
`view` tag. -/
theorem bind_C9_witness : tagGet? fixtureCounterObs.tags "view" = none :=
  bind_C9_no_view_tag b0 u0 (.ok ⟨200, "200 OK", .ok fixtureDoc⟩) rfl
    fixtureCounterObs (by decide)

/-- C10: the per-view cache sections are decoded into the tree (second
conjunct: the fixture's cache name and rrset counter really land in
`Caches`) but never emitted — stripping every view's `Caches` leaves the
emitter's output unchanged for every tree, configuration and target. -/
theorem bind_C10_caches_never_emitted :
    (∀ (b : BindConfig) (addr : URL) (stats : v2Root)
        (acc : List Observation),
      emitXMLv2 b addr (eraseCaches stats) acc = emitXMLv2 b addr stats acc) ∧
    (decodeV2Root cacheDoc).map
        (fun r => r.Statistics.Views.map (fun v => v.Caches)) =
      .ok [[⟨"localhost", [⟨"A", 7⟩]⟩]] := by
  constructor
  · intro b addr stats acc
    simp [eraseCaches, emitXMLv2, List.foldl_map]
  · rfl
